import Mathlib

/-!
Shallow embedding of the retrieval-flow core of the id-security-psw frontend:
the error classifier and retrieval entry points of
`src/frontend/src/services/OTSService.ts`, the passphrase validator of
`src/frontend/src/utils/ValidationUtils.ts`, the route parser of
`src/frontend/src/utils/Router.ts`, and the reveal flow of the `App` class in
`src/frontend/src/components/SecretView.ts`.

Modelling conventions:
* A JavaScript string field that may be `undefined` is modelled as a plain
  `String`, with `""` standing for an absent (or empty) field: the source only
  ever tests such fields for truthiness (`if (data?.message)`, `!!passphrase`,
  `value || secret`), and in JavaScript both `undefined` and `""` are falsy,
  so the code cannot distinguish the two.
* `new Error(msg)` is modelled by its observable payload, the message string.
* `String.prototype.includes(pat)` is modelled by an infix test on the
  character lists; it is case-sensitive exactly like the source.
-/

namespace IdSecurityPsw

/-- Boolean infix test on lists: `isInfixList pat l` is true exactly when
`pat` occurs as a contiguous sublist of `l`. -/
def isInfixList (pat : List Char) : List Char → Bool
  | [] => pat.isEmpty
  | c :: cs => pat.isPrefixOf (c :: cs) || isInfixList pat cs

/-- JavaScript `s.includes(pat)`: case-sensitive substring containment. -/
def includes (s pat : String) : Bool :=
  isInfixList pat.toList s.toList

/-- JavaScript `s.toLowerCase()`, modelled character-wise. -/
def toLowerStr (s : String) : String :=
  String.mk (s.toList.map Char.toLower)

/-- JavaScript `s.trim()`: strip leading and trailing whitespace. -/
def trimStr (s : String) : String :=
  String.mk (((s.toList.dropWhile Char.isWhitespace).reverse.dropWhile Char.isWhitespace).reverse)

/-- The fixed "secret unavailable" message thrown by
`OTSService.retrieveSecret` (OTSService.ts lines 129, 134, 141, 151). -/
def unavailableMsg : String :=
  "Este segredo não está disponível. Pode estar expirado, ter sido acessado anteriormente, ter uma senha incorreta ou não existir."

/-- `OTSService.handleError` (OTSService.ts lines 252-336) restricted to the
`error.response` branch: given the HTTP status, the response body message
(`""` models an absent `data.message`) and the `hasPassphrase` flag, returns
the message of the `Error` the method builds.  The `ECONNABORTED`/`ETIMEDOUT`
and missing-response branches take no part in any claim and are not modelled.
-/
def handleError (status : Nat) (message : String) (hasPassphrase : Bool) : String :=
  if status == 400 then
    if (message != "") && (includes message "passphrase" || includes message "password") then
      "Senha incorreta ou obrigatória"
    else if message != "" then message
    else "Dados inválidos fornecidos"
  else if status == 401 then "Não autorizado: Verifique suas credenciais"
  else if status == 403 then "Acesso negado"
  else if status == 404 then
    if message != "" then
      if includes message "rate limited" || includes message "Cripes!" then
        "Muitas tentativas em pouco tempo. Aguarde alguns segundos e tente novamente."
      else if includes message "expired" || includes message "expirado" || includes message "consumed" then
        "Segredo expirado ou já visualizado"
      else if includes message "viewed" || includes message "visualizado" || includes message "no longer available" then
        "Segredo expirado ou já visualizado"
      else if includes message "Unknown secret" then
        if hasPassphrase then "Senha inválida, segredo expirado ou já visualizado"
        else "Este segredo requer uma senha para ser acessado"
      else if includes message "passphrase" || includes message "password" || includes message "Wrong" then
        if hasPassphrase then "Senha inválida, segredo expirado ou já visualizado"
        else "Este segredo requer uma senha para ser acessado"
      else if decide (10 < message.length) then message
      else "Segredo expirado ou já visualizado"
    else "Segredo expirado ou já visualizado"
  else if status == 429 then "Muitas tentativas: Tente novamente em alguns minutos"
  else if status == 500 then
    "Erro interno do servidor: " ++ (if message != "" then message else "Tente novamente mais tarde")
  else if status == 502 then "Backend indisponível: Verifique se o serviço está funcionando"
  else if status == 503 then "Serviço temporariamente indisponível"
  else if message != "" then message
  else "Erro HTTP " ++ toString status

/-- The error message thrown by `OTSService.retrieveSecret`'s catch block
(OTSService.ts lines 138-152) for an axios error carrying a response: a 404
whose body message contains `"Unknown secret"` is intercepted before
`handleError` and replaced by the generic unavailable message; every other
response error is classified by `handleError` with
`hasPassphrase = !!passphrase`. -/
def retrieveSecretError (status : Nat) (message : String) (passphraseSupplied : Bool) : String :=
  if (status == 404) && includes message "Unknown secret" then unavailableMsg
  else handleError status message passphraseSupplied

/-- The JSON body of a 2xx response to `retrieveSecret`; `""` models an
absent (or empty) field, mirroring JavaScript falsiness. -/
structure RetrieveBody where
  message : String
  value : String
  secret : String
deriving DecidableEq, Repr

/-- The 2xx path of `OTSService.retrieveSecret` (OTSService.ts lines 128-137):
a truthy `message` field raises the unavailable error; otherwise the content
is `data.value || data.secret`, which must itself be truthy or the same error
is raised.  (The errors thrown here are re-thrown unchanged by the catch
block's non-axios branch, lines 145-149.) -/
def retrieveSuccess (body : RetrieveBody) : Except String String :=
  if body.message != "" then Except.error unavailableMsg
  else
    let secretValue := if body.value != "" then body.value else body.secret
    if secretValue == "" then Except.error unavailableMsg
    else Except.ok secretValue

/-- `OTSService.isValidSecretKey` (OTSService.ts lines 240-243), the regex
`^[a-zA-Z0-9]{20,32}$`; `Router.isValidSecretKey` (Router.ts lines 74-76) is
the identical test.  `Char.isAlphanum` is exactly the class `[a-zA-Z0-9]`. -/
def isValidSecretKey (key : String) : Bool :=
  decide (20 ≤ key.length) && decide (key.length ≤ 32) && key.toList.all Char.isAlphanum

/-- The weak-password list of `ValidationUtils.validatePassphrase`
(ValidationUtils.ts lines 63-66). -/
def weakPasswords : List String :=
  ["1234", "12345", "123456", "password", "senha", "admin",
   "teste", "test", "qwerty", "abc123"]

/-- `ValidationResult` (ValidationUtils.ts lines 1-4). -/
structure ValidationResult where
  isValid : Bool
  errors : List String
deriving DecidableEq, Repr

/-- `ValidationUtils.validatePassphrase` (ValidationUtils.ts lines 51-76):
pushes an error for length < 4, one for length > 128, and one when the
lower-cased passphrase is on the weak-password list; valid iff no errors. -/
def validatePassphrase (passphrase : String) : ValidationResult :=
  let errors :=
    (if passphrase.length < 4 then ["A senha deve ter pelo menos 4 caracteres"] else [])
    ++ (if passphrase.length > 128 then ["A senha não pode exceder 128 caracteres"] else [])
    ++ (if weakPasswords.contains (toLowerStr passphrase) then ["Use uma senha mais segura"] else [])
  { isValid := errors.isEmpty, errors := errors }

/-- `Route` (Router.ts lines 1-7); the `params` strings use `""` for an
absent parameter. -/
inductive Route where
  | home
  | secret (secretKey : String) (passphrase : String)
  | notfound
deriving DecidableEq, Repr

/-- The key captured by `Router.parseRoute`'s regex
`^\/secret\/([a-zA-Z0-9]+)$` (Router.ts line 23): the path must be
`/secret/` followed by one or more alphanumeric characters and nothing else. -/
def secretPathKey (path : String) : Option String :=
  let cs := path.toList
  let pre := "/secret/".toList
  if pre.isPrefixOf cs then
    let rest := cs.drop pre.length
    if !rest.isEmpty && rest.all Char.isAlphanum then some (String.mk rest) else none
  else none

/-- `Router.parseRoute` (Router.ts lines 15-38): `path` is
`window.location.pathname` and `pParam` the `p` query parameter (`""` when
absent, modelling `searchParams.get('p') || undefined`). -/
def parseRoute (path : String) (pParam : String) : Route :=
  if path == "/" || path == "" then Route.home
  else
    match secretPathKey path with
    | some secretKey => Route.secret secretKey pParam
    | none => Route.notfound

/-- `AppState.currentView` (SecretView.ts, `App` class, `AppState`). -/
inductive View where
  | form
  | view
  | success
  | retrieve
deriving DecidableEq, Repr

/-- `AppState` of the `App` class (SecretView.ts); the optional string fields
use `""` for `undefined`. -/
structure AppState where
  currentView : View
  secretKey : String
  retrieveKey : String
  passphrase : String
  error : String
  requiresPassphrase : Bool
deriving DecidableEq, Repr

/-- The initial state `{ currentView: 'form' }` of `App`. -/
def initialAppState : AppState :=
  { currentView := View.form, secretKey := "", retrieveKey := "",
    passphrase := "", error := "", requiresPassphrase := false }

/-- `App.handleRoute` (SecretView.ts): state update for each parsed route.
The `secret` case requires a non-empty key (`if (route.params?.secretKey)`). -/
def handleRouteState (st : AppState) (r : Route) : AppState :=
  match r with
  | Route.home =>
      { st with currentView := View.form, retrieveKey := "",
                passphrase := "", secretKey := "", error := "" }
  | Route.secret key p =>
      if key != "" then
        { st with currentView := View.retrieve, retrieveKey := key,
                  passphrase := p, secretKey := "", error := "",
                  requiresPassphrase := false }
      else st
  | Route.notfound => { st with currentView := View.form }

/-- The synchronous decision taken by one invocation of
`App.handleRevealSecret` (SecretView.ts lines 571-672) up to its first
`await`: either an early rejection with no network call, or the issuing of
the probe call (no passphrase) or the passphrase retry call. -/
inductive FlowAction where
  | rejectNoKey
  | rejectEmptyPassphrase
  | probeCall (key : String)
  | retryCall (key : String) (passphrase : String)
deriving DecidableEq, Repr

/-- The prefix of `App.handleRevealSecret` before its first suspension point:
guard on `retrieveKey`, choose the no-passphrase probe when neither
`requiresPassphrase` nor a URL passphrase is set, otherwise read the
passphrase input (`passphraseInput` models the DOM field), reject a blank
one, and issue the retry call with `finalPassphrase`. -/
def revealSubmit (st : AppState) (passphraseInput : String) : FlowAction :=
  if st.retrieveKey == "" then FlowAction.rejectNoKey
  else if !st.requiresPassphrase && st.passphrase == "" then
    FlowAction.probeCall st.retrieveKey
  else
    let passphrase :=
      if st.requiresPassphrase && st.passphrase == "" then passphraseInput
      else st.passphrase
    if st.requiresPassphrase && st.passphrase == "" && trimStr passphrase == "" then
      FlowAction.rejectEmptyPassphrase
    else
      let finalPassphrase :=
        if st.requiresPassphrase then passphrase
        else if st.passphrase != "" then st.passphrase else passphrase
      FlowAction.retryCall st.retrieveKey finalPassphrase

/-- The expiry/consumption message family tested by both catch blocks of
`App.handleRevealSecret` (SecretView.ts lines 604-613 and 685-693). -/
def isExpiredFamily (m : String) : Bool :=
  includes m "expirou" || includes m "expired" || includes m "visualizado" ||
  includes m "viewed" || includes m "não está mais disponível" ||
  includes m "consumed" || includes m "no longer available" ||
  includes m "Segredo expirado ou já visualizado"

/-- The rate-limit message family tested by both catch blocks
(SecretView.ts lines 622 and 703). -/
def isRateLimitFamily (m : String) : Bool :=
  includes m "rate limited" || includes m "Muitas tentativas"

/-- The passphrase-need message family tested by the probe catch block only
(SecretView.ts lines 631-636). -/
def isPassphraseFamily (m : String) : Bool :=
  includes m "Este segredo requer uma senha para ser acessado" ||
  includes m "Senha inválida, segredo expirado ou já visualizado" ||
  includes m "passphrase" || includes m "senha"

/-- The visible effect of resuming `App.handleRevealSecret` after the network
call returns: reveal the content, show the error and schedule `Router.goHome`
after a delay, or switch the view to the passphrase prompt. -/
inductive Reaction where
  | reveal (content : String)
  | showErrorAndRedirect (delayMs : Nat)
  | promptPassphrase
deriving DecidableEq, Repr

/-- The probe catch block (SecretView.ts lines 600-649): expiry family and
rate-limit family show the error and schedule a 3000 ms redirect home, the
passphrase family sets `requiresPassphrase`, and anything else also shows the
error and schedules the 3000 ms redirect. -/
def probeErrorReaction (m : String) : Reaction :=
  if isExpiredFamily m then Reaction.showErrorAndRedirect 3000
  else if isRateLimitFamily m then Reaction.showErrorAndRedirect 3000
  else if isPassphraseFamily m then Reaction.promptPassphrase
  else Reaction.showErrorAndRedirect 3000

/-- The retry catch block (SecretView.ts lines 681-716): the expiry family,
the rate-limit family and the final catch-all each show the error and
schedule the 3000 ms redirect home. -/
def retryErrorReaction (m : String) : Reaction :=
  if isExpiredFamily m then Reaction.showErrorAndRedirect 3000
  else if isRateLimitFamily m then Reaction.showErrorAndRedirect 3000
  else Reaction.showErrorAndRedirect 3000

/-- Continuation of the probe phase on the call's result: success renders the
revealed secret with no timer (SecretView.ts lines 588-598), failure runs the
probe catch block. -/
def probeReaction : Except String String → Reaction
  | Except.ok content => Reaction.reveal content
  | Except.error m => probeErrorReaction m

/-- Continuation of the retry phase on the call's result: success renders the
revealed secret with no timer (SecretView.ts lines 672-680), failure runs the
retry catch block. -/
def retryReaction : Except String String → Reaction
  | Except.ok content => Reaction.reveal content
  | Except.error m => retryErrorReaction m

/-- A retrieval network call issued by the flow and still awaiting its
response. -/
inductive PendingCall where
  | probe (key : String)
  | retry (key : String) (passphrase : String)
deriving DecidableEq, Repr

/-- An external event of the single-threaded event loop: a user submission of
the reveal form, or the arrival of the response to the oldest pending call. -/
inductive Event where
  | submit (passphraseInput : String)
  | response (r : Except String String)
deriving Repr

/-- The app state together with the retrieval calls currently in flight. -/
structure Session where
  app : AppState
  pending : List PendingCall
deriving DecidableEq, Repr

/-- State change applied by a reaction when a response arrives: reveal
switches to the view state and clears `retrieveKey` (SecretView.ts lines
591-595), the passphrase prompt sets `requiresPassphrase` (lines 637-639),
and a scheduled redirect leaves the state untouched until the timer fires. -/
def applyReaction (st : AppState) (r : Reaction) : AppState :=
  match r with
  | Reaction.reveal _ =>
      { st with currentView := View.view, secretKey := st.retrieveKey, retrieveKey := "" }
  | Reaction.promptPassphrase => { st with requiresPassphrase := true }
  | Reaction.showErrorAndRedirect _ => st

/-- One step of the event loop.  `App.handleRevealSecret` mutates no state
before its first `await`, so a submission issues its network call against the
unchanged app state regardless of how many calls are already pending — the
source has no in-flight guard. -/
def step (s : Session) (e : Event) : Session :=
  match e with
  | Event.submit input =>
      match revealSubmit s.app input with
      | FlowAction.probeCall k => { s with pending := s.pending ++ [PendingCall.probe k] }
      | FlowAction.retryCall k p => { s with pending := s.pending ++ [PendingCall.retry k p] }
      | _ => s
  | Event.response r =>
      match s.pending with
      | [] => s
      | c :: rest =>
          let reaction :=
            match c with
            | PendingCall.probe _ => probeReaction r
            | PendingCall.retry _ _ => retryReaction r
          { app := applyReaction s.app reaction, pending := rest }

/-- The session reached by navigating to `/secret/<key>` (optionally with a
`?p=` passphrase) with no call yet in flight. -/
def initSession (key pParam : String) : Session :=
  { app := handleRouteState initialAppState (parseRoute ("/secret/" ++ key) pParam),
    pending := [] }

/-- A string containing a pattern that no empty string contains is non-empty. -/
theorem ne_empty_of_includes {m p : String}
    (h : includes m p = true) (hp : includes "" p = false) : m ≠ "" := by
  intro hm
  rw [hm, hp] at h
  exact Bool.noConfusion h

/-- A string containing one of two patterns that no empty string contains is
non-empty. -/
theorem ne_empty_of_or_includes {m p q : String}
    (h : (includes m p || includes m q) = true)
    (hp : includes "" p = false) (hq : includes "" q = false) : m ≠ "" := by
  intro hm
  rw [hm, hp, hq] at h
  exact Bool.noConfusion h

/-- C1 (counterexample): the 404 response whose body message is
"Unknown secret" is intercepted by `retrieveSecret` itself, so the retrieval
flow's error is the generic unavailable message for both values of
`passphraseWasSupplied` — it is neither the passphrase prompt
'Este segredo requer uma senha para ser acessado' nor
'Senha inválida, segredo expirado ou já visualizado' required by the claim. -/
theorem c1_counterexample :
    retrieveSecretError 404 "Unknown secret" false = unavailableMsg
    ∧ retrieveSecretError 404 "Unknown secret" true = unavailableMsg
    ∧ unavailableMsg ≠ "Este segredo requer uma senha para ser acessado"
    ∧ unavailableMsg ≠ "Senha inválida, segredo expirado ou já visualizado" := by
  exact ⟨rfl, rfl, by decide, by decide⟩

/-- C1 (amended): every 404 response whose message contains "Unknown secret"
makes the retrieval flow throw the generic unavailable message regardless of
`passphraseWasSupplied`, because `retrieveSecret` intercepts it before the
classifier; the classifier `handleError` itself, on a 404 message containing
"Unknown secret" but none of the earlier rate-limit or expired/viewed
patterns, does return the passphrase prompt when no passphrase was supplied
and the invalid-passphrase message when one was. -/
theorem c1_amended (m : String) (b : Bool)
    (hu : includes m "Unknown secret" = true)
    (hrl : includes m "rate limited" = false) (hcr : includes m "Cripes!" = false)
    (he1 : includes m "expired" = false) (he2 : includes m "expirado" = false)
    (he3 : includes m "consumed" = false)
    (hv1 : includes m "viewed" = false) (hv2 : includes m "visualizado" = false)
    (hv3 : includes m "no longer available" = false) :
    retrieveSecretError 404 m b = unavailableMsg
    ∧ handleError 404 m false = "Este segredo requer uma senha para ser acessado"
    ∧ handleError 404 m true = "Senha inválida, segredo expirado ou já visualizado" := by
  have hne : m ≠ "" := ne_empty_of_includes hu (by decide)
  have hb : (m != "") = true := bne_iff_ne.mpr hne
  refine ⟨?_, ?_, ?_⟩
  · unfold retrieveSecretError
    simp [hu]
  · unfold handleError
    simp [hb, hu, hrl, hcr, he1, he2, he3, hv1, hv2, hv3]
  · unfold handleError
    simp [hb, hu, hrl, hcr, he1, he2, he3, hv1, hv2, hv3]

/-- C1 (witness for the amended theorem) at the message "Unknown secret". -/
theorem c1_amended_witness :
    retrieveSecretError 404 "Unknown secret" true = unavailableMsg
    ∧ handleError 404 "Unknown secret" false = "Este segredo requer uma senha para ser acessado"
    ∧ handleError 404 "Unknown secret" true = "Senha inválida, segredo expirado ou já visualizado" :=
  c1_amended "Unknown secret" true (by decide) (by decide) (by decide) (by decide)
    (by decide) (by decide) (by decide) (by decide) (by decide)

/-- C2 (counterexample): a 404 message matching the expired pattern but also
containing the rate-limit marker is classified as rate-limited, not as
'Segredo expirado ou já visualizado' — the rate-limit check runs first. -/
theorem c2_counterexample :
    includes "expired - rate limited" "expired" = true
    ∧ handleError 404 "expired - rate limited" false
        = "Muitas tentativas em pouco tempo. Aguarde alguns segundos e tente novamente."
    ∧ handleError 404 "expired - rate limited" true
        = "Muitas tentativas em pouco tempo. Aguarde alguns segundos e tente novamente."
    ∧ ("Muitas tentativas em pouco tempo. Aguarde alguns segundos e tente novamente." : String)
        ≠ "Segredo expirado ou já visualizado" := by
  exact ⟨by decide, rfl, rfl, by decide⟩

/-- C2 (amended): every 404 response whose message matches an
expired/consumed/viewed/no-longer-available pattern and contains neither
rate-limit marker ("rate limited", "Cripes!") is classified
'Segredo expirado ou já visualizado', for both values of
`passphraseWasSupplied`. -/
theorem c2_amended (m : String) (b : Bool)
    (hpat : (includes m "expired" || includes m "consumed" || includes m "viewed" ||
             includes m "no longer available") = true)
    (hrl : includes m "rate limited" = false) (hcr : includes m "Cripes!" = false) :
    handleError 404 m b = "Segredo expirado ou já visualizado" := by
  simp only [Bool.or_eq_true] at hpat
  have hne : m ≠ "" := by
    rcases hpat with ((h | h) | h) | h
    · exact ne_empty_of_includes h (by decide)
    · exact ne_empty_of_includes h (by decide)
    · exact ne_empty_of_includes h (by decide)
    · exact ne_empty_of_includes h (by decide)
  have hb : (m != "") = true := bne_iff_ne.mpr hne
  unfold handleError
  rcases hpat with ((h | h) | h) | h <;>
    by_cases hbr2 : (includes m "expired" || includes m "expirado" || includes m "consumed") = true <;>
    simp_all

/-- C2 (witness for the amended theorem) at the message "expired". -/
theorem c2_amended_witness :
    handleError 404 "expired" false = "Segredo expirado ou já visualizado" :=
  c2_amended "expired" false (by decide) (by decide) (by decide)

/-- C3 (counterexample): the classifier is case-sensitive, so its decision
does not factor through the lower-cased message: "Unknown secret" and its
lower-cased form "unknown secret" classify differently (passphrase prompt
versus verbatim surfaced message). -/
theorem c3_counterexample :
    toLowerStr "Unknown secret" = "unknown secret"
    ∧ handleError 404 "Unknown secret" false
        ≠ handleError 404 (toLowerStr "Unknown secret") false := by
  exact ⟨by decide, by decide⟩

/-- C3 (amended): the classifier matches its patterns case-sensitively on the
raw message body, so classification agrees with that of the lower-cased
message only when lower-casing leaves the message unchanged. -/
theorem c3_amended (status : Nat) (m : String) (b : Bool) (h : toLowerStr m = m) :
    handleError status m b = handleError status (toLowerStr m) b := by
  rw [h]

/-- C3 (witness for the amended theorem) at the already-lowercase message
"expired". -/
theorem c3_amended_witness :
    handleError 404 "expired" false = handleError 404 (toLowerStr "expired") false :=
  c3_amended 404 "expired" false (by decide)

/-- C4 (counterexample): a 400 response whose message contains "passphrase"
is classified with the single combined message
'Senha incorreta ou obrigatória' for both values of the flag — the outcome
does not distinguish a supplied passphrase from a missing one, and is neither
of the two distinct outcomes the claim requires. -/
theorem c4_counterexample :
    handleError 400 "incorrect passphrase" true = "Senha incorreta ou obrigatória"
    ∧ handleError 400 "incorrect passphrase" false = "Senha incorreta ou obrigatória"
    ∧ ("Senha incorreta ou obrigatória" : String)
        ≠ "Senha inválida, segredo expirado ou já visualizado"
    ∧ ("Senha incorreta ou obrigatória" : String)
        ≠ "Este segredo requer uma senha para ser acessado" := by
  exact ⟨rfl, rfl, by decide, by decide⟩

/-- C4 (amended): every 400 response whose message contains "passphrase" or
"password" is classified 'Senha incorreta ou obrigatória' (wrong or required
passphrase), independently of `passphraseWasSupplied`. -/
theorem c4_amended (m : String) (b : Bool)
    (h : (includes m "passphrase" || includes m "password") = true) :
    handleError 400 m b = "Senha incorreta ou obrigatória" := by
  have hne : m ≠ "" := ne_empty_of_or_includes h (by decide) (by decide)
  have hb : (m != "") = true := bne_iff_ne.mpr hne
  unfold handleError
  simp [hb, h]

/-- C4 (witness for the amended theorem) at the message "passphrase". -/
theorem c4_amended_witness :
    handleError 400 "passphrase" true = "Senha incorreta ou obrigatória" :=
  c4_amended "passphrase" true (by decide)

/-- C5: the reveal flow has no in-flight guard — `handleRevealSecret` mutates
no state before its first `await`, so a second submission of the reveal form
while the first probe call is still pending issues a second concurrent
retrieval call for the same (well-formed) secret key. -/
theorem c5_two_concurrent_calls :
    isValidSecretKey "a0B1c2D3e4F5g6H7i8J9" = true
    ∧ (step (step (initSession "a0B1c2D3e4F5g6H7i8J9" "") (Event.submit ""))
        (Event.submit "")).pending
      = [PendingCall.probe "a0B1c2D3e4F5g6H7i8J9", PendingCall.probe "a0B1c2D3e4F5g6H7i8J9"] := by
  exact ⟨by decide, rfl⟩

/-- C6 (counterexample): the 404 message "erro de senha interno" matches none
of the classifier's patterns and is longer than 10 characters, so it is
surfaced verbatim (an UnknownFailure, and not the passphrase-required
outcome); yet the probe phase of the flow reacts to it by prompting for a
passphrase instead of scheduling the 3000 ms redirect home. -/
theorem c6_counterexample :
    retrieveSecretError 404 "erro de senha interno" false = "erro de senha interno"
    ∧ ("erro de senha interno" : String) ≠ "Este segredo requer uma senha para ser acessado"
    ∧ probeReaction (Except.error "erro de senha interno") = Reaction.promptPassphrase
    ∧ Reaction.promptPassphrase ≠ Reaction.showErrorAndRedirect 3000 := by
  exact ⟨rfl, by decide, rfl, by decide⟩

/-- C6 (amended): on the passphrase-retry phase every error message displays
and schedules the 3000 ms redirect home; on the probe phase the
ExpiredOrConsumed and RateLimited messages do so as well, while the
PassphraseRequired message switches to the passphrase prompt, and in general
the probe prompts (instead of redirecting) exactly for the messages matching
a passphrase marker but no expired/rate-limit marker — which includes some
verbatim UnknownFailure messages; a successful reveal never schedules a
redirect. -/
theorem c6_amended (m c : String) :
    retryReaction (Except.error m) = Reaction.showErrorAndRedirect 3000
    ∧ probeReaction (Except.ok c) = Reaction.reveal c
    ∧ retryReaction (Except.ok c) = Reaction.reveal c
    ∧ probeReaction (Except.error "Segredo expirado ou já visualizado")
        = Reaction.showErrorAndRedirect 3000
    ∧ probeReaction
        (Except.error "Muitas tentativas em pouco tempo. Aguarde alguns segundos e tente novamente.")
        = Reaction.showErrorAndRedirect 3000
    ∧ probeReaction (Except.error "Muitas tentativas: Tente novamente em alguns minutos")
        = Reaction.showErrorAndRedirect 3000
    ∧ probeReaction (Except.error "Este segredo requer uma senha para ser acessado")
        = Reaction.promptPassphrase
    ∧ (probeReaction (Except.error m) = Reaction.promptPassphrase
        ↔ (isExpiredFamily m = false ∧ isRateLimitFamily m = false
            ∧ isPassphraseFamily m = true))
    ∧ (probeReaction (Except.error m) = Reaction.promptPassphrase
        ∨ probeReaction (Except.error m) = Reaction.showErrorAndRedirect 3000) := by
  refine ⟨?_, rfl, rfl, rfl, rfl, rfl, rfl, ?_, ?_⟩
  · show retryErrorReaction m = _
    unfold retryErrorReaction
    cases isExpiredFamily m <;> cases isRateLimitFamily m <;> simp
  · show probeErrorReaction m = _ ↔ _
    unfold probeErrorReaction
    cases h1 : isExpiredFamily m <;> cases h2 : isRateLimitFamily m <;>
      cases h3 : isPassphraseFamily m <;> simp [h1, h2, h3]
  · show probeErrorReaction m = _ ∨ probeErrorReaction m = _
    unfold probeErrorReaction
    cases h1 : isExpiredFamily m <;> cases h2 : isRateLimitFamily m <;>
      cases h3 : isPassphraseFamily m <;> simp [h1, h2, h3]

/-- C7: on a 2xx response, a truthy `message` field or the absence of any
truthy `value`/`secret` field makes `retrieveSecret` raise the unavailable
error rather than return content, and content is returned only when the body
had no message and a non-empty value or secret field. -/
theorem c7_success_failure_markers (body : RetrieveBody) :
    ((body.message ≠ "" ∨ (body.value = "" ∧ body.secret = "")) →
      retrieveSuccess body = Except.error unavailableMsg)
    ∧ (∀ c : String, retrieveSuccess body = Except.ok c →
        body.message = "" ∧ c ≠ "" ∧ (c = body.value ∨ c = body.secret)) := by
  obtain ⟨msg, v, s⟩ := body
  unfold retrieveSuccess
  by_cases hm : msg = "" <;> by_cases hv : v = "" <;> by_cases hs : s = "" <;>
    simp_all

/-- C7 (witness): a 200 body carrying a message field is rejected. -/
theorem c7_success_failure_markers_witness :
    retrieveSuccess { message := "backend error", value := "v", secret := "" }
      = Except.error unavailableMsg :=
  (c7_success_failure_markers { message := "backend error", value := "v", secret := "" }).1
    (Or.inl (by decide))

/-- C10: on a 2xx body with no message field, the content comes from the
`value` field when non-empty, else from the `secret` field, and the
unavailable error is raised when both are empty — either field name yields
the same revealed content. -/
theorem c10_value_secret_fallback (body : RetrieveBody) (hm : body.message = "") :
    (body.value ≠ "" → retrieveSuccess body = Except.ok body.value)
    ∧ (body.value = "" → body.secret ≠ "" → retrieveSuccess body = Except.ok body.secret)
    ∧ (body.value = "" → body.secret = "" → retrieveSuccess body = Except.error unavailableMsg) := by
  obtain ⟨msg, v, s⟩ := body
  simp only at hm
  subst hm
  unfold retrieveSuccess
  by_cases hv : v = "" <;> by_cases hs : s = "" <;> simp_all

/-- C10 (witness): a body carrying only the `value` field reveals it. -/
theorem c10_value_secret_fallback_witness :
    retrieveSuccess { message := "", value := "v", secret := "" } = Except.ok "v" :=
  (c10_value_secret_fallback { message := "", value := "v", secret := "" } rfl).1 (by decide)

/-- C8: the key "abc" is outside the 20-32 alphanumeric shape, yet the route
`/secret/abc` parses to a retrieval view and submitting the reveal form
issues the network probe for it — `isValidSecretKey` is never consulted on
the retrieval path. -/
theorem c8_invalid_key_reaches_network :
    isValidSecretKey "abc" = false
    ∧ parseRoute "/secret/abc" "" = Route.secret "abc" ""
    ∧ (step (initSession "abc" "") (Event.submit "")).pending = [PendingCall.probe "abc"] := by
  exact ⟨by decide, rfl, rfl⟩

/-- C9: `validatePassphrase` accepts exactly the passphrases of length 4 to
128 whose lower-cased form is not on the fixed weak-password list, and every
rejected passphrase carries at least one error message. -/
theorem c9_validatePassphrase_spec (p : String) :
    ((validatePassphrase p).isValid = true
      ↔ (4 ≤ p.length ∧ p.length ≤ 128
          ∧ weakPasswords.contains (toLowerStr p) = false))
    ∧ ((validatePassphrase p).isValid = false →
        1 ≤ (validatePassphrase p).errors.length) := by
  unfold validatePassphrase
  by_cases h1 : p.length < 4 <;> by_cases h2 : p.length > 128 <;>
    cases h3 : weakPasswords.contains (toLowerStr p) <;>
    (simp [h1, h2, h3]; try omega)

/-- C9 (witness) at the passphrase "abcd". -/
theorem c9_validatePassphrase_spec_witness :
    ((validatePassphrase "abcd").isValid = true
      ↔ (4 ≤ ("abcd" : String).length ∧ ("abcd" : String).length ≤ 128
          ∧ weakPasswords.contains (toLowerStr "abcd") = false))
    ∧ ((validatePassphrase "abcd").isValid = false →
        1 ≤ (validatePassphrase "abcd").errors.length) :=
  c9_validatePassphrase_spec "abcd"

end IdSecurityPsw
